import Mathlib

/-!
Shallow embedding of the consumer-side delivery pipeline of the
kafka-pubsub-system repository:

* `src/consumer/src/data_processor.py` — `DataProcessor.process_message`,
  `DataProcessor.process_batch`;
* `src/consumer/src/storage.py` — `MongoDBHandler.insert_batch` (the retry
  loop with exponential backoff and duplicate-key classification);
* `src/consumer/src/consumer.py` — `DataConsumer.process_and_store_batch`,
  `DataConsumer.send_to_dead_letter`, `DataConsumer.commit_offsets`,
  `DataConsumer.calculate_lag`, `DataConsumer.connect_kafka` and the
  startup part of `DataConsumer.run`.

External collaborators (the Kafka client, pymongo, `json.loads`,
`bytes.decode`, the wall clock) are modelled by their outcomes: a raw
record carries the decode/parse outcome of its value bytes, the store's
response to each bulk-insert attempt is a parameter indexed by attempt
number, and the clock readings are explicit parameters.
-/

namespace KafkaPubSub

/-- JSON values as produced by `json.loads`. An object is an ordered list
of key/value pairs, mirroring Python dict insertion order. -/
inductive JsonValue where
  | obj  : List (String × JsonValue) → JsonValue
  | arr  : List JsonValue → JsonValue
  | str  : String → JsonValue
  | num  : Int → JsonValue
  | bool : Bool → JsonValue
  | null : JsonValue

/-- A processed document: a Python dict, i.e. an ordered association list
with distinct keys (insertion order preserved). -/
abbrev Doc := List (String × JsonValue)

/-- Python `d[k] = v` on a dict modelled as an association list: overwrite
the value at an existing key in place, else append the new pair. -/
def setField (doc : Doc) (k : String) (v : JsonValue) : Doc :=
  if doc.any (fun kv => kv.fst = k) then
    doc.map (fun kv => if kv.fst = k then (k, v) else kv)
  else
    doc ++ [(k, v)]

/-- Python `d.get(k)` on a dict: value of the first entry with key `k`. -/
def getField (doc : Doc) (k : String) : Option JsonValue :=
  (doc.find? (fun kv => kv.fst = k)).map (fun kv => kv.snd)

/-- Outcome of decoding and parsing a record's value bytes. It models the
contract of the external `bytes.decode` / `json.loads` calls: a value is
either not valid UTF-8 (`decode` raises), or it decodes to `text` and
`json.loads text` returns `parsed` (`none` when it raises
`JSONDecodeError`). -/
inductive Payload where
  | notUtf8 : Payload
  | utf8 (text : String) (parsed : Option JsonValue) : Payload

/-- A raw Kafka record as seen by the consumer (`msg.value()`,
`msg.key()`, `msg.topic()`, `msg.partition()`, `msg.offset()`).
`value = none` models a record whose `value()` is falsy (absent or
empty bytes). -/
structure RawRecord where
  value : Option Payload
  key : Option String
  topic : String
  partition : Nat
  offset : Int

/-- Embedding of `DataProcessor.process_message` (data_processor.py,
lines 19-55). `now` is the wall-clock reading
`datetime.utcnow().isoformat() + 'Z'` taken at transform time. Returns
`none` exactly when the method returns `(False, None)`: empty value,
UTF-8 decode failure (caught by the outer `except Exception`), JSON parse
failure, or a parsed value that is not a dict. On success it returns the
parsed mapping with `received_at` set. -/
def process_message (now : String) (msg : RawRecord) : Option Doc :=
  match msg.value with
  | none => none
  | some Payload.notUtf8 => none
  | some (Payload.utf8 _ parsed) =>
    match parsed with
    | some (JsonValue.obj fields) =>
        some (setField fields "received_at" (JsonValue.str now))
    | _ => none

/-- Embedding of `DataProcessor.process_batch` (data_processor.py,
lines 57-75): apply `process_message` to each record, keep the successes
in order. The method only logs the tally; it performs no metric update
(the `DataProcessor` holds no metrics handle). -/
def process_batch (now : String) (msgs : List RawRecord) : List Doc :=
  msgs.filterMap (process_message now)

/-! ## Storage: `MongoDBHandler.insert_batch` (storage.py, lines 91-148) -/

/-- One entry of `e.details['writeErrors']` in a pymongo `BulkWriteError`;
`code` is `error.get('code')` (`none` when the key is absent). -/
structure WriteErrorEntry where
  code : Option Int

/-- The store's response to one `insert_many` call, as seen through the
`try`/`except` of `insert_batch`:
* `ok n` — the call returns a result with `n` inserted ids;
* `bulkWriteError es` — it raises `BulkWriteError` (a `PyMongoError`)
  whose `details.get('writeErrors', [])` is `es`;
* `pymongoError` — it raises some other `PyMongoError`;
* `attributeError` — it raises an exception that is not a `PyMongoError`;
  concretely, when `connect` failed, `self.collection` is `None` and
  `None.insert_many(...)` raises `AttributeError`, which the
  `except PyMongoError` clause does not catch. -/
inductive InsertOutcome where
  | ok (insertedCount : Nat)
  | bulkWriteError (writeErrors : List WriteErrorEntry)
  | pymongoError
  | attributeError

/-- An exception escaping `insert_batch` uncaught (not a `PyMongoError`). -/
inductive StorageExc where
  | attributeError
deriving DecidableEq

/-- Result of a call to `insert_batch`: how many `insert_many` attempts
were made, the backoff sleeps performed (in seconds, in order), and the
returned value — `Except.error` when an uncaught exception propagates,
otherwise `some true` / `some false` for `return True` / `return False`,
and `none` when the `while` loop is never entered and the function falls
off its end returning Python `None` (only possible when
`max_retries ≤ 0`). -/
structure InsertTrace where
  attempts : Nat
  sleeps : List ℚ
  result : Except StorageExc (Option Bool)

/-- The `while retry_count < self.max_retries` loop of `insert_batch`
(storage.py, lines 104-148). `outcomes i` is the store's response to the
`(i+1)`-th `insert_many` call; `retryCount` is the number of failed
attempts so far and `sleeps` the backoff sleeps already performed. The
structural `fuel` argument stands for the remaining loop iterations; the
caller passes `fuel = maxRetries`, which is an upper bound since
`retry_count` grows by one per iteration. On a failed attempt the loop
computes `backoff = (retry_backoff_ms / 1000) * 2 ^ (retry_count - 1)`;
a `BulkWriteError` whose write errors all carry code 11000 returns
`True` before any sleep, otherwise the loop sleeps and retries while
`retry_count < max_retries` and returns `False` when retries are
exhausted. -/
def insertLoop (outcomes : Nat → InsertOutcome) (maxRetries : Nat)
    (backoffMs : ℚ) : Nat → Nat → List ℚ → InsertTrace
  | 0, retryCount, sleeps => ⟨retryCount, sleeps, Except.ok none⟩
  | fuel + 1, retryCount, sleeps =>
    if retryCount < maxRetries then
      match outcomes retryCount with
      | InsertOutcome.ok _ =>
          ⟨retryCount + 1, sleeps, Except.ok (some true)⟩
      | InsertOutcome.attributeError =>
          ⟨retryCount + 1, sleeps, Except.error StorageExc.attributeError⟩
      | InsertOutcome.bulkWriteError es =>
          let rc := retryCount + 1
          let backoff := backoffMs / 1000 * 2 ^ (rc - 1)
          if es.all (fun e => e.code == some 11000) then
            ⟨rc, sleeps, Except.ok (some true)⟩
          else if rc < maxRetries then
            insertLoop outcomes maxRetries backoffMs fuel rc (sleeps ++ [backoff])
          else
            ⟨rc, sleeps, Except.ok (some false)⟩
      | InsertOutcome.pymongoError =>
          let rc := retryCount + 1
          let backoff := backoffMs / 1000 * 2 ^ (rc - 1)
          if rc < maxRetries then
            insertLoop outcomes maxRetries backoffMs fuel rc (sleeps ++ [backoff])
          else
            ⟨rc, sleeps, Except.ok (some false)⟩
    else ⟨retryCount, sleeps, Except.ok none⟩

/-- Python `if 'id' in doc: doc['_id'] = doc['id']`, applied to each
document before every `insert_many` attempt (storage.py, lines 108-110). -/
def assignId (doc : Doc) : Doc :=
  match getField doc "id" with
  | some v => setField doc "_id" v
  | none => doc

/-- Embedding of `MongoDBHandler.insert_batch` (storage.py, lines
91-148): empty input returns `True` at once; otherwise the retry loop
runs. The documents actually handed to the store are
`documents.map assignId`; the store's responses are abstracted by
`outcomes`. -/
def insert_batch (outcomes : Nat → InsertOutcome) (maxRetries : Nat)
    (backoffMs : ℚ) (documents : List Doc) : InsertTrace :=
  if documents.isEmpty then ⟨0, [], Except.ok (some true)⟩
  else insertLoop outcomes maxRetries backoffMs maxRetries 0 []

/-! ## Consumer pipeline: `DataConsumer` (consumer.py) -/

/-- The dead-letter envelope built by `DataConsumer.send_to_dead_letter`
(consumer.py, lines 238-245): original value decoded as UTF-8 text when
present (else `none`), the error string, the record's source coordinates
and a `time.time()` capture timestamp. -/
structure DeadLetterMessage where
  original_message : Option String
  error : String
  topic : String
  partition : Nat
  offset : Int
  timestamp : ℚ
deriving DecidableEq

/-- The decoded text of a record's value, as used for the
`original_message` field: `none` when `message.value()` is falsy. -/
def originalText (msg : RawRecord) : Option String :=
  match msg.value with
  | some (Payload.utf8 t _) => some t
  | _ => none

/-- Embedding of `DataConsumer.send_to_dead_letter` (consumer.py, lines
220-263). Returns the envelope published to the dead-letter topic, or
`none` when the method returns `False`: no producer is initialized, or
`message.value().decode('utf-8')` raises inside the `try` (value not
UTF-8). `nowT` is the `time.time()` reading. -/
def send_to_dead_letter (hasProducer : Bool) (nowT : ℚ)
    (msg : RawRecord) (err : String) : Option DeadLetterMessage :=
  if hasProducer then
    match msg.value with
    | some Payload.notUtf8 => none
    | _ => some ⟨originalText msg, err, msg.topic, msg.partition, msg.offset, nowT⟩
  else none

/-- The pipeline state mutated by the consumer: the commit cursor
`messages_since_commit`, the metric counters `messages_processed_total`
and `processing_errors_total`, the envelopes published to the dead-letter
topic so far, and the number of `consumer.commit` calls issued. -/
structure PipelineState where
  messages_since_commit : Nat
  messages_processed : Nat
  processing_errors : Nat
  deadLetters : List DeadLetterMessage
  commitAttempts : Nat
deriving DecidableEq

/-- The consumer's configuration and collaborators, fixed over one loop
iteration: whether the dead-letter producer and the Kafka consumer handle
exist, the `enable_auto_commit` and metrics-enabled flags, the commit
threshold `offset_commit_frequency`, the storage retry settings, the two
clock readings, the store's responses per insert attempt, and whether
`consumer.commit(asynchronous=False)` succeeds. -/
structure PipelineEnv where
  hasProducer : Bool
  hasConsumer : Bool
  enable_auto_commit : Bool
  metricsEnabled : Bool
  offset_commit_frequency : Nat
  max_retries : Nat
  retry_backoff_ms : ℚ
  now : String
  nowT : ℚ
  insertOutcomes : Nat → InsertOutcome
  commitOk : Bool

/-- Embedding of `DataConsumer.commit_offsets` (consumer.py, lines
265-280): guarded by `self.consumer and not self.enable_auto_commit`;
`consumer.commit` is called synchronously (counted in `commitAttempts`);
on success the cursor is reset to zero, on `KafkaException` the error is
logged and the cursor keeps its value. -/
def commit_offsets (env : PipelineEnv) (s : PipelineState) : PipelineState :=
  if env.hasConsumer && !env.enable_auto_commit then
    if env.commitOk then
      { s with commitAttempts := s.commitAttempts + 1, messages_since_commit := 0 }
    else
      { s with commitAttempts := s.commitAttempts + 1 }
  else s

/-- Embedding of `DataConsumer.process_and_store_batch` (consumer.py,
lines 179-218). Empty batch: `return True`. Otherwise the batch is
transformed; when the transformed set is non-empty it is handed to
`insert_batch`. An exception escaping `insert_batch` propagates (the
method has no handler). On a falsy storage result every *original*
message of the batch is sent to the dead-letter topic with error
`"MongoDB storage failure"` and the method returns `False` — before the
cursor update. On success the processed-count metric and the commit
cursor are updated and `commit_offsets` runs when the cursor reaches
`offset_commit_frequency`. -/
def process_and_store_batch (env : PipelineEnv) (msgs : List RawRecord)
    (s : PipelineState) : Except StorageExc (Bool × PipelineState) :=
  if msgs.isEmpty then Except.ok (true, s)
  else
    let processed := process_batch env.now msgs
    if processed.isEmpty then Except.ok (true, s)
    else
      let trace := insert_batch env.insertOutcomes env.max_retries
        env.retry_backoff_ms processed
      match trace.result with
      | Except.error exc => Except.error exc
      | Except.ok r =>
        if r = some true then
          let s1 := { s with
            messages_processed := s.messages_processed +
              (if env.metricsEnabled then processed.length else 0),
            messages_since_commit := s.messages_since_commit + msgs.length }
          if s1.messages_since_commit ≥ env.offset_commit_frequency then
            Except.ok (true, commit_offsets env s1)
          else
            Except.ok (true, s1)
        else
          let dls := msgs.filterMap
            (fun m => send_to_dead_letter env.hasProducer env.nowT m "MongoDB storage failure")
          Except.ok (false, { s with deadLetters := s.deadLetters ++ dls })

/-- One body of the `while self.running` loop of `DataConsumer.run`
(consumer.py, lines 332-348), for an already-polled batch: a non-empty
batch goes through `process_and_store_batch`; any exception escaping the
body is caught by the `except Exception` handler, which logs it,
increments the processing-errors counter and pauses — in particular no
dead-letter routing happens on that path. `calculate_lag` does not touch
this state. -/
def run_iteration (env : PipelineEnv) (msgs : List RawRecord)
    (s : PipelineState) : PipelineState :=
  if msgs.isEmpty then s
  else
    match process_and_store_batch env msgs s with
    | Except.ok (_, s1) => s1
    | Except.error _ =>
        { s with processing_errors := s.processing_errors +
            (if env.metricsEnabled then 1 else 0) }

/-- The `while retry_count < self.max_retries` loop of
`DataConsumer.connect_kafka` (consumer.py, lines 88-131). `attemptOk i`
tells whether the `(i+1)`-th connection attempt succeeds (no
`KafkaException`). `some true`/`some false` are the explicit returns;
`none` is the fall-off-the-end Python `None` when the loop is never
entered. `fuel` is the remaining-iterations bound, `maxRetries` at the
top-level call. -/
def connectKafkaLoop (attemptOk : Nat → Bool) (maxRetries : Nat) :
    Nat → Nat → Option Bool
  | 0, _ => none
  | fuel + 1, retryCount =>
    if retryCount < maxRetries then
      if attemptOk retryCount then some true
      else
        let rc := retryCount + 1
        if rc < maxRetries then connectKafkaLoop attemptOk maxRetries fuel rc
        else some false
    else none

/-- Embedding of `DataConsumer.connect_kafka` (consumer.py, lines
81-131). -/
def connect_kafka (attemptOk : Nat → Bool) (maxRetries : Nat) : Option Bool :=
  connectKafkaLoop attemptOk maxRetries maxRetries 0

/-- What the startup part of `DataConsumer.run` does before the loop. -/
inductive RunOutcome where
  | exitedBeforeLoop
  | enteredLoop (storageConnected : Bool)
deriving DecidableEq

/-- Embedding of the startup of `DataConsumer.run` (consumer.py, lines
320-330): a falsy `connect_kafka()` result makes `run` return before the
processing loop; a failed `storage.connect()` only logs
"Failed to connect to MongoDB, messages will be sent to dead letter
topic" and the loop is entered anyway. -/
def run_startup (attemptOk : Nat → Bool) (maxRetries : Nat)
    (storageConnectOk : Bool) : RunOutcome :=
  match connect_kafka attemptOk maxRetries with
  | some true => RunOutcome.enteredLoop storageConnectOk
  | _ => RunOutcome.exitedBeforeLoop

/-- The store responses seen by `insert_batch` as a function of whether
`MongoDBHandler.connect` succeeded: when it failed, `self.collection` is
still `None` and every `insert_many` call raises `AttributeError`
(not a `PyMongoError`); when it succeeded the network decides. -/
def storageOutcomes (connected : Bool) (network : Nat → InsertOutcome) :
    Nat → InsertOutcome :=
  fun i => if connected then network i else InsertOutcome.attributeError

/-! ## Lag: `DataConsumer.calculate_lag` (consumer.py, lines 282-307) -/

/-- One assigned partition as observed by `calculate_lag`: the low and
high watermarks from `get_watermark_offsets` and the current position
from `consumer.position` (either may be `None`). -/
structure PartitionInfo where
  low : Int
  high : Option Int
  position : Option Int

/-- Embedding of `DataConsumer.calculate_lag`: without a consumer handle
the method returns before setting the gauge (`none`); otherwise it sums
`high - position` over the assigned partitions, skipping partitions where
either value is `None`, and sets the gauge to the total. -/
def calculate_lag (hasConsumer : Bool) (parts : List PartitionInfo) :
    Option Int :=
  if hasConsumer then
    some (parts.foldl
      (fun acc p =>
        match p.position, p.high with
        | some pos, some hi => acc + (hi - pos)
        | _, _ => acc)
      0)
  else none

/-! ## Helper lemmas -/

theorem find?_overwrite_same (doc : Doc) (k : String) (v : JsonValue)
    (h : doc.any (fun kv => kv.fst = k) = true) :
    (doc.map (fun kv => if kv.fst = k then (k, v) else kv)).find?
      (fun kv => kv.fst = k) = some (k, v) := by
  induction doc with
  | nil => simp at h
  | cons hd tl ih =>
    by_cases hak : hd.fst = k
    · simp [hak]
    · have htl : tl.any (fun kv => kv.fst = k) = true := by
        simpa [List.any_cons, hak] using h
      simpa [hak, List.find?_cons_of_neg] using ih htl

theorem find?_overwrite_other (doc : Doc) (k k' : String) (v : JsonValue)
    (h : k' ≠ k) :
    (doc.map (fun kv => if kv.fst = k then (k, v) else kv)).find?
      (fun kv => kv.fst = k') = doc.find? (fun kv => kv.fst = k') := by
  induction doc with
  | nil => rfl
  | cons hd tl ih =>
    rw [List.map_cons]
    by_cases hak : hd.fst = k
    · rw [if_pos hak,
        List.find?_cons_of_neg _ (by simpa using fun hh => h hh.symm),
        List.find?_cons_of_neg _ (by simpa [hak] using fun hh => h hh.symm)]
      exact ih
    · rw [if_neg hak]
      by_cases hak' : hd.fst = k'
      · rw [List.find?_cons_of_pos _ (by simpa using hak'),
          List.find?_cons_of_pos _ (by simpa using hak')]
      · rw [List.find?_cons_of_neg _ (by simpa using hak'),
          List.find?_cons_of_neg _ (by simpa using hak')]
        exact ih

theorem find?_append_same (doc : Doc) (k : String) (v : JsonValue)
    (h : doc.any (fun kv => kv.fst = k) = false) :
    (doc ++ [(k, v)]).find? (fun kv => kv.fst = k) = some (k, v) := by
  induction doc with
  | nil => simp
  | cons hd tl ih =>
    simp only [List.any_cons, Bool.or_eq_false_iff] at h
    rw [List.cons_append, List.find?_cons_of_neg _ (by simp [h.1])]
    exact ih h.2

theorem find?_append_other (doc : Doc) (k k' : String) (v : JsonValue)
    (h : k' ≠ k) :
    (doc ++ [(k, v)]).find? (fun kv => kv.fst = k') =
      doc.find? (fun kv => kv.fst = k') := by
  induction doc with
  | nil =>
    rw [List.nil_append,
      List.find?_cons_of_neg _ (by simpa using fun hh => h hh.symm)]
  | cons hd tl ih =>
    rw [List.cons_append]
    by_cases hak' : hd.fst = k'
    · rw [List.find?_cons_of_pos _ (by simpa using hak'),
        List.find?_cons_of_pos _ (by simpa using hak')]
    · rw [List.find?_cons_of_neg _ (by simpa using hak'),
        List.find?_cons_of_neg _ (by simpa using hak')]
      exact ih

/-- After `setField doc k v`, looking up `k` yields `v`. -/
theorem getField_setField_same (doc : Doc) (k : String) (v : JsonValue) :
    getField (setField doc k v) k = some v := by
  unfold getField setField
  cases h : doc.any (fun kv => kv.fst = k) with
  | true =>
    rw [if_pos rfl, find?_overwrite_same doc k v h]
    rfl
  | false =>
    rw [if_neg (by simp), find?_append_same doc k v h]
    rfl

/-- `setField doc k v` leaves every other key's lookup unchanged. -/
theorem getField_setField_other (doc : Doc) (k k' : String) (v : JsonValue)
    (h : k' ≠ k) : getField (setField doc k v) k' = getField doc k' := by
  unfold getField setField
  cases hany : doc.any (fun kv => kv.fst = k) with
  | true => rw [if_pos rfl, find?_overwrite_other doc k k' v h]
  | false => rw [if_neg (by simp), find?_append_other doc k k' v h]

/-- When every attempt raises a plain `PyMongoError`, the retry loop makes
exactly the remaining `maxRetries - retryCount` attempts and returns
`False`. -/
theorem insertLoop_all_pymongo (outcomes : Nat → InsertOutcome)
    (maxRetries : Nat) (backoffMs : ℚ)
    (h : ∀ i, outcomes i = InsertOutcome.pymongoError) :
    ∀ fuel retryCount sleeps, fuel + retryCount = maxRetries →
      retryCount < maxRetries →
      (insertLoop outcomes maxRetries backoffMs fuel retryCount sleeps).result =
          Except.ok (some false) ∧
      (insertLoop outcomes maxRetries backoffMs fuel retryCount sleeps).attempts =
          maxRetries := by
  intro fuel
  induction fuel with
  | zero => intro rc sleeps hsum hlt; omega
  | succ fuel ih =>
    intro rc sleeps hsum hlt
    rw [insertLoop, if_pos hlt, h rc]
    by_cases hrc : rc + 1 < maxRetries
    · simp only [if_pos hrc]
      exact ih (rc + 1) _ (by omega) hrc
    · have : rc + 1 = maxRetries := by omega
      simp only [if_neg hrc]
      exact ⟨trivial, this⟩

/-- `insert_batch` on a non-empty batch where every attempt raises a plain
`PyMongoError`: `max_retries` attempts, then `return False`. -/
theorem insert_batch_all_pymongo (outcomes : Nat → InsertOutcome)
    (maxRetries : Nat) (backoffMs : ℚ) (documents : List Doc)
    (hne : documents ≠ []) (hmr : 0 < maxRetries)
    (h : ∀ i, outcomes i = InsertOutcome.pymongoError) :
    (insert_batch outcomes maxRetries backoffMs documents).result =
        Except.ok (some false) ∧
    (insert_batch outcomes maxRetries backoffMs documents).attempts =
        maxRetries := by
  rw [insert_batch, if_neg (by simpa [List.isEmpty_iff] using hne)]
  exact insertLoop_all_pymongo outcomes maxRetries backoffMs h
    maxRetries 0 [] (by omega) hmr

/-- A first attempt raising a `BulkWriteError` whose write errors all
carry code 11000 makes `insert_batch` return `True` after exactly one
attempt and no sleep. -/
theorem insert_batch_dup_first (outcomes : Nat → InsertOutcome)
    (maxRetries : Nat) (backoffMs : ℚ) (documents : List Doc)
    (es : List WriteErrorEntry)
    (hne : documents ≠ []) (hmr : 0 < maxRetries)
    (h0 : outcomes 0 = InsertOutcome.bulkWriteError es)
    (hall : es.all (fun e => e.code == some 11000) = true) :
    insert_batch outcomes maxRetries backoffMs documents =
      ⟨1, [], Except.ok (some true)⟩ := by
  obtain ⟨k, rfl⟩ : ∃ k, maxRetries = k + 1 := ⟨maxRetries - 1, by omega⟩
  rw [insert_batch, if_neg (by simpa [List.isEmpty_iff] using hne),
    insertLoop, if_pos hmr, h0]
  simp [hall]

/-- With the producer available, dead-lettering succeeds for every record
whose value is absent or UTF-8 decodable, so the failure path publishes
one envelope per original record, in batch order. -/
theorem deadLetters_one_per_record (nowT : ℚ) (err : String)
    (msgs : List RawRecord)
    (h : ∀ m ∈ msgs, m.value ≠ some Payload.notUtf8) :
    msgs.filterMap (fun m => send_to_dead_letter true nowT m err) =
      msgs.map (fun m =>
        ⟨originalText m, err, m.topic, m.partition, m.offset, nowT⟩) := by
  induction msgs with
  | nil => rfl
  | cons m tl ih =>
    have hm : send_to_dead_letter true nowT m err =
        some ⟨originalText m, err, m.topic, m.partition, m.offset, nowT⟩ := by
      rw [send_to_dead_letter, if_pos rfl]
      match hv : m.value with
      | none => rfl
      | some (Payload.utf8 t p) => rfl
      | some Payload.notUtf8 => exact absurd hv (h m (by simp))
    rw [List.filterMap_cons, hm, List.map_cons]
    exact congrArg _ (ih fun m' hm' => h m' (by simp [hm']))

/-- `commit_offsets` touches only the cursor and the commit-attempt
count. -/
theorem commit_offsets_other_fields (env : PipelineEnv) (s : PipelineState) :
    (commit_offsets env s).processing_errors = s.processing_errors ∧
    (commit_offsets env s).messages_processed = s.messages_processed ∧
    (commit_offsets env s).deadLetters = s.deadLetters := by
  rw [commit_offsets]
  split
  · split <;> exact ⟨rfl, rfl, rfl⟩
  · exact ⟨rfl, rfl, rfl⟩

/-- The lag fold, on partitions whose watermark and position are all
present, computes `acc + Σ (high − position)`. -/
theorem lag_foldl (parts : List PartitionInfo)
    (h : ∀ p ∈ parts, p.position.isSome ∧ p.high.isSome) :
    ∀ acc : Int,
      parts.foldl
        (fun acc p =>
          match p.position, p.high with
          | some pos, some hi => acc + (hi - pos)
          | _, _ => acc)
        acc =
      acc + (parts.map (fun p => p.high.getD 0 - p.position.getD 0)).sum := by
  induction parts with
  | nil => intro acc; simp
  | cons p tl ih =>
    intro acc
    obtain ⟨hpos, hhi⟩ := h p (by simp)
    obtain ⟨pos, hp⟩ := Option.isSome_iff_exists.mp hpos
    obtain ⟨hi, hh⟩ := Option.isSome_iff_exists.mp hhi
    rw [List.foldl_cons, List.map_cons, List.sum_cons, hp, hh]
    rw [ih (fun q hq => h q (by simp [hq])) (acc + (hi - pos))]
    simp [hp, hh]
    ring

/-! ## Concrete inputs for witnesses and counterexamples -/

/-- The decoded text of the sample payload from the spec's end-to-end
scenario. -/
def sampleText : String := "\x7b\"id\": \"x1\", \"name\": \"item_1\"\x7d"

/-- The parsed fields of the sample payload. -/
def sampleFields : Doc :=
  [("id", JsonValue.str "x1"), ("name", JsonValue.str "item_1")]

/-- A record with a valid JSON-object payload. -/
def sampleMsg : RawRecord :=
  ⟨some (Payload.utf8 sampleText (some (JsonValue.obj sampleFields))),
    some "k1", "data-topic", 0, 7⟩

/-- A record whose payload is UTF-8 text but not valid JSON. -/
def badJsonMsg : RawRecord :=
  ⟨some (Payload.utf8 "not a valid json" none), some "k2", "data-topic", 0, 8⟩

/-- A second record with a valid JSON-object payload. -/
def sampleMsg2 : RawRecord :=
  ⟨some (Payload.utf8 "\x7b\"id\": \"x2\"\x7d"
      (some (JsonValue.obj [("id", JsonValue.str "x2")]))),
    none, "data-topic", 1, 3⟩

/-- The pipeline state at startup: cursor and counters at zero. -/
def initialState : PipelineState := ⟨0, 0, 0, [], 0⟩

/-- An environment with the default configuration (`max_retries=3`,
`retry_backoff_ms=1000`, `offset_commit_frequency=1000`,
`enable_auto_commit=False`) in which the store accepts every insert. -/
def okStoreEnv : PipelineEnv :=
  ⟨true, true, false, true, 1000, 3, 1000,
    "2026-10-12T00:00:00.000000Z", 99, fun _ => InsertOutcome.ok 2, true⟩

/-- Same configuration, but every insert attempt raises a plain
`PyMongoError` (storage unreachable). -/
def failStoreEnv : PipelineEnv :=
  ⟨true, true, false, true, 1000, 3, 1000,
    "2026-10-12T00:00:00.000000Z", 99, fun _ => InsertOutcome.pymongoError, true⟩

/-! ## Claims about the transformer (C6) -/

/-- Claim C6 (confirmed): `process_message` fails when the record has no
value bytes; fails when the value bytes do not decode to UTF-8 or do not
parse as a map-shaped document; and on success returns the parsed mapping
augmented with a `received_at` field set to `now`, the rendering of the
current UTC instant, all other fields unchanged. -/
theorem transform_contract (now : String) (msg : RawRecord) :
    (msg.value = none → process_message now msg = none) ∧
    (msg.value = some Payload.notUtf8 → process_message now msg = none) ∧
    (∀ t pv, msg.value = some (Payload.utf8 t pv) →
      (∀ fields, pv ≠ some (JsonValue.obj fields)) →
      process_message now msg = none) ∧
    (∀ t fields,
      msg.value = some (Payload.utf8 t (some (JsonValue.obj fields))) →
      ∃ d, process_message now msg = some d ∧
        getField d "received_at" = some (JsonValue.str now) ∧
        ∀ k, k ≠ "received_at" → getField d k = getField fields k) := by
  refine ⟨?_, ?_, ?_, ?_⟩
  · intro h
    rw [process_message, h]
  · intro h
    rw [process_message, h]
  · intro t pv h hobj
    rw [process_message, h]
    match pv, hobj with
    | none, _ => rfl
    | some (JsonValue.obj fields), hobj => exact absurd rfl (hobj fields)
    | some (JsonValue.arr l), _ => rfl
    | some (JsonValue.str s), _ => rfl
    | some (JsonValue.num n), _ => rfl
    | some (JsonValue.bool b), _ => rfl
    | some JsonValue.null, _ => rfl
  · intro t fields h
    rw [process_message, h]
    exact ⟨_, rfl, getField_setField_same fields _ _,
      fun k hk => getField_setField_other fields _ k _ hk⟩

/-- Witness for C6 at concrete inputs: the invalid-JSON record is
rejected, the valid record is transformed and gains `received_at`. -/
theorem transform_contract_witness :
    process_message "2026-10-12T00:00:00.000000Z" badJsonMsg = none ∧
    ∃ d, process_message "2026-10-12T00:00:00.000000Z" sampleMsg = some d ∧
      getField d "received_at" =
        some (JsonValue.str "2026-10-12T00:00:00.000000Z") ∧
      ∀ k, k ≠ "received_at" → getField d k = getField sampleFields k := by
  constructor
  · exact (transform_contract _ badJsonMsg).2.2.1 "not a valid json" none rfl
      (fun fields h => Option.noConfusion h)
  · exact (transform_contract _ sampleMsg).2.2.2 sampleText sampleFields rfl

/-! ## Claims about the persistence gateway (C3, C4, C10) -/

/-- Claim C3 (confirmed): a bulk-write error whose per-document write
errors all carry the duplicate-key code 11000 makes `insert_batch` return
`True` after the single attempt, with no backoff sleep and no further
attempt. -/
theorem insert_batch_all_duplicate_keys_success
    (outcomes : Nat → InsertOutcome) (maxRetries : Nat) (backoffMs : ℚ)
    (documents : List Doc) (es : List WriteErrorEntry)
    (hne : documents ≠ []) (hmr : 0 < maxRetries)
    (h0 : outcomes 0 = InsertOutcome.bulkWriteError es)
    (hall : ∀ e ∈ es, e.code = some 11000) :
    insert_batch outcomes maxRetries backoffMs documents =
      ⟨1, [], Except.ok (some true)⟩ :=
  insert_batch_dup_first outcomes maxRetries backoffMs documents es hne hmr h0
    (by simpa [List.all_eq_true] using hall)

/-- Witness for C3: two duplicate-key write errors on the first attempt,
`True` returned at once. -/
theorem insert_batch_all_duplicate_keys_success_witness :
    insert_batch
      (fun _ => InsertOutcome.bulkWriteError [⟨some 11000⟩, ⟨some 11000⟩])
      3 1000 [sampleFields] = ⟨1, [], Except.ok (some true)⟩ :=
  insert_batch_all_duplicate_keys_success _ 3 1000 [sampleFields] _
    (by simp) (by omega) rfl (by decide)

/-- Claim C4 (confirmed): with `max_retries=3` and
`retry_backoff_ms=1000`, a bulk write failing on every attempt makes
exactly 3 attempts, sleeps 1.0 s then 2.0 s between them and none after
the last, and returns `False`. -/
theorem backoff_schedule (outcomes : Nat → InsertOutcome)
    (documents : List Doc) (hne : documents ≠ [])
    (hfail : ∀ i, outcomes i = InsertOutcome.pymongoError) :
    insert_batch outcomes 3 1000 documents =
      ⟨3, [1, 2], Except.ok (some false)⟩ := by
  have h : outcomes = fun _ => InsertOutcome.pymongoError := funext hfail
  subst h
  rw [insert_batch, if_neg (by simpa [List.isEmpty_iff] using hne)]
  norm_num [insertLoop]

/-- Witness for C4 at a concrete one-document batch. -/
theorem backoff_schedule_witness :
    insert_batch (fun _ => InsertOutcome.pymongoError) 3 1000 [sampleFields] =
      ⟨3, [1, 2], Except.ok (some false)⟩ :=
  backoff_schedule _ [sampleFields] (by simp) (fun _ => rfl)

/-- Claim C10 (confirmed): a bulk-write error whose `writeErrors` list is
empty (for example only a write-concern error) makes the all-duplicate
check vacuously true, so `insert_batch` returns `True` immediately,
without retrying. -/
theorem insert_batch_empty_write_errors_success
    (outcomes : Nat → InsertOutcome) (maxRetries : Nat) (backoffMs : ℚ)
    (documents : List Doc)
    (hne : documents ≠ []) (hmr : 0 < maxRetries)
    (h0 : outcomes 0 = InsertOutcome.bulkWriteError []) :
    insert_batch outcomes maxRetries backoffMs documents =
      ⟨1, [], Except.ok (some true)⟩ :=
  insert_batch_dup_first outcomes maxRetries backoffMs documents [] hne hmr h0 rfl

/-- Witness for C10: an empty `writeErrors` list on the first attempt,
`True` returned at once. -/
theorem insert_batch_empty_write_errors_success_witness :
    insert_batch (fun _ => InsertOutcome.bulkWriteError []) 3 1000
      [sampleFields] = ⟨1, [], Except.ok (some true)⟩ :=
  insert_batch_empty_write_errors_success _ 3 1000 [sampleFields]
    (by simp) (by omega) rfl

/-! ## Claim about lag reporting (C9) -/

/-- Claim C9 (confirmed): when a consumer handle exists and every
assigned partition reports a position and a high watermark, the gauge
value is the sum over partitions of `high - position`. -/
theorem lag_is_sum_of_high_minus_position (parts : List PartitionInfo)
    (h : ∀ p ∈ parts, p.position.isSome ∧ p.high.isSome) :
    calculate_lag true parts =
      some ((parts.map (fun p => p.high.getD 0 - p.position.getD 0)).sum) := by
  rw [calculate_lag, if_pos rfl, lag_foldl parts h 0, zero_add]

/-- Witness for C9: partitions `(high=200, position=150)` and
`(high=350, position=300)` report a total lag of exactly 100. -/
theorem lag_is_sum_of_high_minus_position_witness :
    calculate_lag true
      [⟨100, some 200, some 150⟩, ⟨200, some 350, some 300⟩] = some 100 := by
  rw [lag_is_sum_of_high_minus_position _ (by decide)]
  rfl

/-! ## Claim about offset commits (C8) -/

/-- Claim C8 (confirmed): under manual commit mode with a consumer
handle, a `commit_offsets` call always issues one synchronous commit;
a successful commit resets the cursor to zero and a failed commit leaves
it unchanged; and in `process_and_store_batch`, once the cursor reaches
`offset_commit_frequency` after a successfully persisted batch, the
commit is attempted. -/
theorem commit_cursor_atomicity (env : PipelineEnv) (s : PipelineState)
    (msgs : List RawRecord) (s2 : PipelineState)
    (hc : env.hasConsumer = true) (ha : env.enable_auto_commit = false) :
    ((commit_offsets env s).commitAttempts = s.commitAttempts + 1) ∧
    (env.commitOk = true → (commit_offsets env s).messages_since_commit = 0) ∧
    (env.commitOk = false →
      (commit_offsets env s).messages_since_commit = s.messages_since_commit) ∧
    (msgs ≠ [] → process_batch env.now msgs ≠ [] →
      process_and_store_batch env msgs s = Except.ok (true, s2) →
      env.offset_commit_frequency ≤ s.messages_since_commit + msgs.length →
      s2.commitAttempts = s.commitAttempts + 1) := by
  have hguard : (env.hasConsumer && !env.enable_auto_commit) = true := by
    simp [hc, ha]
  refine ⟨?_, ?_, ?_, ?_⟩
  · rw [commit_offsets, if_pos hguard]
    cases hok : env.commitOk <;> simp
  · intro hok
    rw [commit_offsets, if_pos hguard, if_pos hok]
  · intro hok
    rw [commit_offsets, if_pos hguard, if_neg (by simp [hok])]
  · intro hne hpne heq hth
    rw [process_and_store_batch,
      if_neg (by simpa [List.isEmpty_iff] using hne)] at heq
    rw [if_neg (show ¬(process_batch env.now msgs).isEmpty = true by
      simpa [List.isEmpty_iff] using hpne)] at heq
    simp only [ge_iff_le] at heq
    split at heq
    · exact Except.noConfusion heq
    · split at heq
      · have hpair := Except.ok.inj heq
        rw [Prod.mk.injEq] at hpair
        obtain ⟨-, hs2⟩ := hpair
        rw [← hs2, commit_offsets, if_pos hguard]
        cases hok : env.commitOk <;> simp
      · simp at heq

/-- An environment with commit threshold 1 used to exercise the commit
trigger. -/
def commitEnv : PipelineEnv :=
  ⟨true, true, false, true, 1, 3, 1000,
    "2026-10-12T00:00:00.000000Z", 99, fun _ => InsertOutcome.ok 1, true⟩

/-- The pipeline state after `[sampleMsg]` is persisted under `commitEnv`
and the threshold-1 commit succeeds. -/
def committedState : PipelineState := ⟨0, 1, 0, [], 1⟩

/-- Witness for C8 at concrete inputs: one commit is attempted and the
cursor is reset, and the successfully persisted single-message batch at
threshold 1 triggers the commit. -/
theorem commit_cursor_atomicity_witness :
    (commit_offsets commitEnv initialState).commitAttempts = 0 + 1 ∧
    (commit_offsets commitEnv initialState).messages_since_commit = 0 ∧
    committedState.commitAttempts = 0 + 1 := by
  obtain ⟨h1, h2, h3, h4⟩ :=
    commit_cursor_atomicity commitEnv initialState [sampleMsg] committedState
      rfl rfl
  exact ⟨h1, h2 rfl, h4 (by simp)
    (by rw [show process_batch commitEnv.now [sampleMsg] =
        [setField sampleFields "received_at"
          (JsonValue.str commitEnv.now)] from rfl]; simp)
    rfl (by decide)⟩

/-! ## Claim C5: partial-batch tolerance -/

/-- Claim C5 (amended): a batch of one malformed record between two valid
ones transforms to exactly the two valid records' documents in their
original relative order, and the processing-errors counter is NOT
incremented — `DataProcessor` holds no metrics handle and the successful
store path never touches that counter. -/
theorem mixed_batch_tolerance (env : PipelineEnv) (a b c : RawRecord)
    (da dc : Doc) (s : PipelineState) (n : Nat)
    (ha : process_message env.now a = some da)
    (hb : process_message env.now b = none)
    (hc : process_message env.now c = some dc)
    (hins : env.insertOutcomes 0 = InsertOutcome.ok n)
    (hmr : 0 < env.max_retries) :
    process_batch env.now [a, b, c] = [da, dc] ∧
    ∃ s', process_and_store_batch env [a, b, c] s = Except.ok (true, s') ∧
      s'.processing_errors = s.processing_errors := by
  have hpb : process_batch env.now [a, b, c] = [da, dc] := by
    simp [process_batch, ha, hb, hc]
  refine ⟨hpb, ?_⟩
  obtain ⟨k, hk⟩ : ∃ k, env.max_retries = k + 1 :=
    ⟨env.max_retries - 1, by omega⟩
  have htrace : insert_batch env.insertOutcomes env.max_retries
      env.retry_backoff_ms [da, dc] = ⟨1, [], Except.ok (some true)⟩ := by
    rw [insert_batch, if_neg (by simp), hk, insertLoop,
      if_pos (by omega), hins]
  rw [process_and_store_batch, if_neg (by simp)]
  simp only [hpb, List.isEmpty_cons, Bool.false_eq_true, if_false, htrace,
    if_true]
  by_cases hth :
      s.messages_since_commit + [a, b, c].length ≥ env.offset_commit_frequency
  · rw [if_pos hth]
    exact ⟨_, rfl, (commit_offsets_other_fields env _).1⟩
  · rw [if_neg hth]
    exact ⟨_, rfl, rfl⟩

/-- A batch with one malformed record between two valid ones. -/
def mixedBatch : List RawRecord := [sampleMsg, badJsonMsg, sampleMsg2]

/-- The pipeline state after running `mixedBatch` with a healthy store. -/
def mixedRunState : PipelineState := run_iteration okStoreEnv mixedBatch initialState

/-- Witness for C5 (amended) at concrete inputs. -/
theorem mixed_batch_tolerance_witness :
    process_batch okStoreEnv.now mixedBatch =
      [setField sampleFields "received_at" (JsonValue.str okStoreEnv.now),
       setField [("id", JsonValue.str "x2")] "received_at"
         (JsonValue.str okStoreEnv.now)] ∧
    ∃ s', process_and_store_batch okStoreEnv mixedBatch initialState =
        Except.ok (true, s') ∧
      s'.processing_errors = initialState.processing_errors :=
  mixed_batch_tolerance okStoreEnv sampleMsg badJsonMsg sampleMsg2 _ _
    initialState 2 rfl rfl rfl rfl (by decide)

/-- Counterexample for C5 as stated: on the mixed batch the transformer
yields 2 documents but the processing-errors counter stays at 0; it is
not incremented by 1 as the claim demands. -/
theorem mixed_batch_error_counter_counterexample :
    (process_batch okStoreEnv.now mixedBatch).length = 2 ∧
    mixedRunState.processing_errors = initialState.processing_errors ∧
    ¬ mixedRunState.processing_errors = initialState.processing_errors + 1 := by
  refine ⟨rfl, rfl, by decide⟩

/-! ## Claim C1: end-to-end dead-letter scenario -/

/-- Claim C1 (amended): with one valid record and storage failing every
attempt, the batch yields persistence failure (`False` returned, no
document persisted), exactly one dead-letter envelope whose error field
is `"MongoDB storage failure"`, and the commit cursor is left unchanged —
the failure return precedes the cursor increment. -/
theorem dead_letter_scenario (env : PipelineEnv) (m : RawRecord)
    (t : String) (fields : Doc) (s : PipelineState)
    (hv : m.value = some (Payload.utf8 t (some (JsonValue.obj fields))))
    (hp : env.hasProducer = true) (hmr : 0 < env.max_retries)
    (hfail : ∀ i, env.insertOutcomes i = InsertOutcome.pymongoError) :
    process_and_store_batch env [m] s =
      Except.ok (false, { s with deadLetters := s.deadLetters ++
        [⟨some t, "MongoDB storage failure",
          m.topic, m.partition, m.offset, env.nowT⟩] }) := by
  have hpb : process_batch env.now [m] =
      [setField fields "received_at" (JsonValue.str env.now)] := by
    simp [process_batch, process_message, hv]
  have htrace := insert_batch_all_pymongo env.insertOutcomes env.max_retries
    env.retry_backoff_ms (process_batch env.now [m])
    (by rw [hpb]; simp) hmr hfail
  have hdl : [m].filterMap
      (fun m' => send_to_dead_letter env.hasProducer env.nowT m'
        "MongoDB storage failure") =
      [⟨some t, "MongoDB storage failure",
        m.topic, m.partition, m.offset, env.nowT⟩] := by
    rw [hp, deadLetters_one_per_record env.nowT _ [m]
      (by intro m' hm'; rw [List.mem_singleton] at hm'; subst hm'; rw [hv]; simp)]
    rw [List.map_singleton, originalText, hv]
  rw [process_and_store_batch, if_neg (by simp)]
  simp only [htrace.1, hdl,
    if_neg (show ¬(process_batch env.now [m]).isEmpty = true by
      rw [hpb]; simp)]
  rfl

/-- The pipeline state after the single-valid-record batch hits an
unreachable store. -/
def dlRunState : PipelineState := run_iteration failStoreEnv [sampleMsg] initialState

/-- Witness for C1 (amended) at the concrete scenario input. -/
theorem dead_letter_scenario_witness :
    process_and_store_batch failStoreEnv [sampleMsg] initialState =
      Except.ok (false, { initialState with deadLetters :=
        [⟨some sampleText, "MongoDB storage failure", "data-topic", 0, 7, 99⟩] }) := by
  have h := dead_letter_scenario failStoreEnv sampleMsg sampleText sampleFields
    initialState rfl rfl (by decide) (fun _ => rfl)
  simpa using h

/-- Counterexample for C1 as stated: in the concrete scenario the single
envelope's error field is `"MongoDB storage failure"`, not
`"storage failure"`, and the commit cursor is not incremented. -/
theorem dead_letter_scenario_counterexample :
    dlRunState.deadLetters.length = 1 ∧
    ¬ (∃ d ∈ dlRunState.deadLetters, d.error = "storage failure") ∧
    ¬ dlRunState.messages_since_commit = initialState.messages_since_commit + 1 := by
  refine ⟨rfl, by decide, by decide⟩

/-! ## Claim C2: dead-letter completeness on storage failure -/

/-- Claim C2 (amended): when persistence of a batch fails after
exhausting the gateway's `max_retries` attempts, every original record of
the batch — including records that failed transformation — yields exactly
one dead-letter envelope, in batch order, each with reason
`"MongoDB storage failure"`, and the pipeline layer returns `False`
without further retrying (the retries all happened inside the gateway:
`attempts = max_retries`). Requires the dead-letter producer to be
initialized and each record's raw value, when present, to be
UTF-8-decodable. -/
theorem dead_letter_completeness (env : PipelineEnv) (msgs : List RawRecord)
    (s : PipelineState)
    (hp : env.hasProducer = true) (hmr : 0 < env.max_retries)
    (hfail : ∀ i, env.insertOutcomes i = InsertOutcome.pymongoError)
    (hpne : process_batch env.now msgs ≠ [])
    (hdec : ∀ m ∈ msgs, m.value ≠ some Payload.notUtf8) :
    process_and_store_batch env msgs s =
      Except.ok (false,
        { s with deadLetters :=
            (s.deadLetters ++
              msgs.map (fun m =>
                (⟨originalText m, "MongoDB storage failure",
                  m.topic, m.partition, m.offset, env.nowT⟩ :
                  DeadLetterMessage))) }) ∧
    (insert_batch env.insertOutcomes env.max_retries env.retry_backoff_ms
      (process_batch env.now msgs)).attempts = env.max_retries := by
  have hne : msgs ≠ [] := by
    intro h
    exact hpne (by rw [h]; rfl)
  have htrace := insert_batch_all_pymongo env.insertOutcomes env.max_retries
    env.retry_backoff_ms (process_batch env.now msgs) hpne hmr hfail
  have hdl : msgs.filterMap
      (fun m' => send_to_dead_letter env.hasProducer env.nowT m'
        "MongoDB storage failure") =
      msgs.map (fun m =>
        (⟨originalText m, "MongoDB storage failure",
          m.topic, m.partition, m.offset, env.nowT⟩ : DeadLetterMessage)) := by
    rw [hp]
    exact deadLetters_one_per_record env.nowT _ msgs hdec
  refine ⟨?_, htrace.2⟩
  rw [process_and_store_batch, if_neg (by simpa [List.isEmpty_iff] using hne)]
  simp only [htrace.1, hdl,
    if_neg (show ¬(process_batch env.now msgs).isEmpty = true by
      simpa [List.isEmpty_iff] using hpne)]
  rfl

/-- The pipeline state after a two-record batch (one valid, one
malformed) hits an unreachable store. -/
def dl2RunState : PipelineState :=
  run_iteration failStoreEnv [sampleMsg, badJsonMsg] initialState

/-- Witness for C2 (amended) at a concrete two-record batch with one
transform failure. -/
theorem dead_letter_completeness_witness :
    process_and_store_batch failStoreEnv [sampleMsg, badJsonMsg] initialState =
      Except.ok (false, { initialState with deadLetters :=
        [⟨some sampleText, "MongoDB storage failure", "data-topic", 0, 7, 99⟩,
         ⟨some "not a valid json", "MongoDB storage failure",
           "data-topic", 0, 8, 99⟩] }) ∧
    (insert_batch failStoreEnv.insertOutcomes failStoreEnv.max_retries
      failStoreEnv.retry_backoff_ms
      (process_batch failStoreEnv.now [sampleMsg, badJsonMsg])).attempts =
        failStoreEnv.max_retries := by
  have h := dead_letter_completeness failStoreEnv [sampleMsg, badJsonMsg]
    initialState rfl (by decide) (fun _ => rfl)
    (by rw [show process_batch failStoreEnv.now [sampleMsg, badJsonMsg] =
        [setField sampleFields "received_at"
          (JsonValue.str failStoreEnv.now)] from rfl]; simp)
    (fun m' hm' => by
      rcases List.mem_cons.mp hm' with h' | h'
      · subst h'
        exact fun hx => Payload.noConfusion (Option.some.inj hx)
      · rw [List.mem_singleton] at h'
        subst h'
        exact fun hx => Payload.noConfusion (Option.some.inj hx))
  simpa using h

/-- Counterexample for C2 as stated: the two envelopes of the failed
batch carry reason `"MongoDB storage failure"`, not `"storage failure"`. -/
theorem dead_letter_completeness_counterexample :
    dl2RunState.deadLetters.length = 2 ∧
    ¬ (∀ d ∈ dl2RunState.deadLetters, d.error = "storage failure") := by
  refine ⟨rfl, by decide⟩

/-! ## Claim C7: startup failure asymmetry -/

/-- An environment in which the storage connection failed at startup:
`self.collection` is `None`, so every insert attempt raises
`AttributeError`. -/
def disconnectedEnv : PipelineEnv :=
  ⟨true, true, false, true, 1000, 3, 1000,
    "2026-10-12T00:00:00.000000Z", 99,
    storageOutcomes false (fun _ => InsertOutcome.ok 1), true⟩

/-- Claim C7 (code bug): broker-connect failure after its bounded retries
prevents startup, and a storage-connect failure does not — both as
claimed. But with storage never connected, a persistence attempt on a
non-empty batch raises `AttributeError` (insert on a `None` collection),
which `except PyMongoError` does not catch; the exception propagates to
the run loop's catch-all, so NO dead-letter envelope is produced and the
error counter is bumped instead — contradicting the claim and the code's
own startup log line "messages will be sent to dead letter topic". -/
theorem storage_disconnected_no_dead_letter :
    run_startup (fun _ => false) 3 true = RunOutcome.exitedBeforeLoop ∧
    run_startup (fun _ => true) 3 false = RunOutcome.enteredLoop false ∧
    (run_iteration disconnectedEnv [sampleMsg] initialState).deadLetters = [] ∧
    (run_iteration disconnectedEnv [sampleMsg] initialState).processing_errors =
      initialState.processing_errors + 1 := by
  exact ⟨rfl, rfl, rfl, rfl⟩

end KafkaPubSub
